import Mathlib

/-!
Verification of the copyjob job-execution engine (src/main.rs) against its
natural-language specification. The Rust source is shallowly embedded:
paths are component lists, the filesystem and the regex library are
oracles (structures of functions standing for the observable results of
the corresponding system calls and of RegexBuilder compilation), and the
walkdir iterator is an explicit list of directory entries. Every
definition below mirrors the control flow of the named Rust function.
-/

namespace Copyjob

/-- Paths are modelled as their lists of components, the way the Rust
PathBuf compares and joins them (component-wise, trailing separators
ignored). -/
abbrev FilePath := List String

/-- Error code FOERR_GENERIC_FAILURE from main.rs. -/
def FOERR_GENERIC_FAILURE : Nat := 1001
/-- Error code FOERR_DESTINATION_IS_ITSELF from main.rs. -/
def FOERR_DESTINATION_IS_ITSELF : Nat := 1011
/-- Error code FOERR_DESTINATION_IS_DIR from main.rs. -/
def FOERR_DESTINATION_IS_DIR : Nat := 1012
/-- Error code FOERR_DESTINATION_IS_SYMLINK from main.rs. -/
def FOERR_DESTINATION_IS_SYMLINK : Nat := 1013
/-- Error code FOERR_DESTINATION_IS_NEWER from main.rs. -/
def FOERR_DESTINATION_IS_NEWER : Nat := 1014
/-- Error code FOERR_DESTINATION_IS_IDENTICAL from main.rs. -/
def FOERR_DESTINATION_IS_IDENTICAL : Nat := 1015
/-- Error code FOERR_DESTINATION_IS_READONLY from main.rs. -/
def FOERR_DESTINATION_IS_READONLY : Nat := 1016
/-- Error code FOERR_DESTINATION_EXISTS from main.rs. -/
def FOERR_DESTINATION_EXISTS : Nat := 1021
/-- Error code FOERR_DESTINATION_NOT_ACCESSIBLE from main.rs. -/
def FOERR_DESTINATION_NOT_ACCESSIBLE : Nat := 1022
/-- Error code FOERR_CANNOT_CREATE_DIR from main.rs. -/
def FOERR_CANNOT_CREATE_DIR : Nat := 1031
/-- Error code FOERR_CANNOT_CREATE_FILE from main.rs. -/
def FOERR_CANNOT_CREATE_FILE : Nat := 1032
/-- Error code FOERR_SOURCE_NOT_EXISTS from main.rs. -/
def FOERR_SOURCE_NOT_EXISTS : Nat := 1041
/-- Error code FOERR_SOURCE_IS_DIR from main.rs. -/
def FOERR_SOURCE_IS_DIR : Nat := 1042
/-- Error code FOERR_SOURCE_IS_SYMLINK from main.rs. -/
def FOERR_SOURCE_IS_SYMLINK : Nat := 1043
/-- Error code FOERR_SOURCE_NOT_ACCESSIBLE from main.rs. -/
def FOERR_SOURCE_NOT_ACCESSIBLE : Nat := 1044

/-- Error code CJERR_GENERIC_FAILURE from main.rs. -/
def CJERR_GENERIC_FAILURE : Nat := 2001
/-- Error code CJERR_SOURCE_DIR_NOT_EXISTS from main.rs. -/
def CJERR_SOURCE_DIR_NOT_EXISTS : Nat := 2011
/-- Error code CJERR_DESTINATION_DIR_NOT_EXISTS from main.rs. -/
def CJERR_DESTINATION_DIR_NOT_EXISTS : Nat := 2012
/-- Error code CJERR_NO_SOURCE_FILES from main.rs. -/
def CJERR_NO_SOURCE_FILES : Nat := 2013
/-- Error code CJERR_CANNOT_DETERMINE_DESTFILE from main.rs. -/
def CJERR_CANNOT_DETERMINE_DESTFILE : Nat := 2021
/-- Error code CJERR_HALT_ON_COPY_ERROR from main.rs. -/
def CJERR_HALT_ON_COPY_ERROR : Nat := 2041

/-- The Outcome enum of main.rs: Success or Error(code). -/
inductive Outcome where
  | success : Outcome
  | error : Nat → Outcome
deriving Repr, DecidableEq

/-- The part of std::fs::Metadata the engine inspects: is_dir, is_symlink
and the modified() timestamp (none when modified() fails). Timestamps are
abstracted to naturals with the SystemTime order. -/
structure FileStat where
  isDir : Bool
  isSymlink : Bool
  mtime : Option Nat
deriving Repr, DecidableEq

/-- Result of the std::fs::copy call: success, a PermissionDenied error,
or any other error kind. -/
inductive CopyRes where
  | ok : CopyRes
  | permissionDenied : CopyRes
  | otherError : CopyRes
deriving Repr, DecidableEq

/-- A write-effect on the filesystem performed by copy_file or
remove_file, recorded in order: trash::delete, fs::create_dir_all,
fs::copy and fs::remove_file calls. A frame property (no write) is
expressed as an empty effect list. -/
inductive FsEffect where
  | trashFile : FilePath → FsEffect
  | createDirAll : FilePath → FsEffect
  | copyCall : FilePath → FilePath → FsEffect
  | removeCall : FilePath → FsEffect
deriving Repr, DecidableEq

/-- Oracle for the filesystem as observed by one run: canonicalize,
existence, metadata, streaming SHA-256 digests, and the success or
failure of the mutating calls. -/
structure FS where
  canonicalize : FilePath → Option FilePath
  pathExists : FilePath → Bool
  stat : FilePath → Option FileStat
  digest : FilePath → Option String
  createDirOk : FilePath → Bool
  copyResult : FilePath → FilePath → CopyRes
  trashOk : FilePath → Bool
  removeOk : FilePath → Bool

/-- Oracle for RegexBuilder: given the final pattern string and the
case_insensitive flag, either the compiled matcher (as a predicate on the
matched string) or none when compilation fails. -/
abbrev RegexOracle := String → Bool → Option (String → Bool)

/-- Semantics of RE_MATCH_NO_FILE, the compiled fallback regular
expression built from STR_MATCH_NO_FILE, whose pattern text reads
caret backslash star dollar: anchored at both ends, it matches exactly
the one-character string consisting of a star. -/
def matchNoFile (s : String) : Bool := s == "*"

/-- Semantics of the anchored pattern obtained by wrapping the combined
include pattern of a job with an empty patterns_include list: the empty
group between the anchors matches only the empty string. -/
def matchEmptyOnly (s : String) : Bool := s == ""

/-- combine_regexp_patterns from main.rs: parenthesized disjunction of
the sub-patterns. -/
def combine_regexp_patterns (res : List String) : String :=
  "(" ++ String.intercalate "|" res ++ ")"

/-- The pattern-collection loop of extract_config for patterns_include,
patterns_exclude and patterns_exclude_dir: only non-empty strings are
pushed onto the list that is then combined. -/
def collect_nonempty (items : List String) : List String :=
  items.filter (fun s => !(s == ""))

/-- One entry produced by the walkdir iterator over a search directory
(after the filter_map dropping errors): the directory components between
the search root and the entry, the file-name component, and the entry's
file_type flags as walkdir reports them under the configured
follow_links policy. -/
structure WalkEntry where
  parentComps : List String
  fileName : String
  isDir : Bool
  isSymlink : Bool
deriving Repr, DecidableEq

/-- The subdir_name string list_files_matching computes for an entry: the
characters of the entry's parent directory beyond the search root,
wrapped in path separators (the code keeps the separator preceding the
first kept component and pushes one more at the end). -/
def WalkEntry.subdirName (e : WalkEntry) : String :=
  String.join (e.parentComps.map (fun d => "/" ++ d)) ++ "/"

/-- The full path of a walk entry: the search root followed by the
entry's components, as entry.path() reports it. -/
def WalkEntry.fullPath (root : FilePath) (e : WalkEntry) : FilePath :=
  root ++ e.parentComps ++ [e.fileName]

/-- Matcher construction for include and exclude patterns in
list_files_matching: the pattern is anchored at both ends, built with the
case_insensitive flag, and on compilation failure replaced by
RE_MATCH_NO_FILE. -/
def build_anchored_matcher (ro : RegexOracle) (pat : String) (ci : Bool) : String → Bool :=
  (ro ("^" ++ pat ++ "$") ci).getD matchNoFile

/-- Matcher construction for the exclude-directory pattern in
list_files_matching: the pattern is wrapped in escaped path separators
instead of anchors, and on compilation failure replaced by
RE_MATCH_NO_FILE. -/
def build_excludedir_matcher (ro : RegexOracle) (pat : String) (ci : Bool) : String → Bool :=
  (ro ("/" ++ pat ++ "/") ci).getD matchNoFile

/-- The per-entry filter of list_files_matching (main.rs lines 1044 to
1073): the entry is kept when it is not a directory and not a symlink
with follow_symlinks set, its subdir_name differs from the star marker
and does not match the exclude-directory matcher, and its file name
matches the include matcher and not the exclude matcher. -/
def entry_selected (includeMatch excludeMatch excludedirMatch : String → Bool)
    (follow_symlinks : Bool) (e : WalkEntry) : Bool :=
  !(e.isDir || (follow_symlinks && e.isSymlink)) &&
    (!(e.subdirName == "*") && !(excludedirMatch e.subdirName)) &&
    (includeMatch e.fileName && !(excludeMatch e.fileName))

/-- The list of paths list_files_matching accumulates: the kept entries
of the walk, mapped to their full paths. -/
def selected_files (ro : RegexOracle) (search_dir : FilePath) (entries : List WalkEntry)
    (include_pattern exclude_pattern excludedir_pattern : String)
    (follow_symlinks case_sensitive : Bool) : List FilePath :=
  let includeMatch := build_anchored_matcher ro include_pattern (!case_sensitive)
  let excludeMatch := build_anchored_matcher ro exclude_pattern (!case_sensitive)
  let excludedirMatch := build_excludedir_matcher ro excludedir_pattern (!case_sensitive)
  (entries.filter (entry_selected includeMatch excludeMatch excludedirMatch follow_symlinks)).map
    (WalkEntry.fullPath search_dir)

/-- list_files_matching from main.rs. The entries list stands for the
walkdir stream over search_dir already limited to the depth selected by
the recursive flag, with error entries dropped; the function always
returns some list (the none case of its Option result type is never
produced by the code). -/
def list_files_matching (ro : RegexOracle) (search_dir : FilePath) (entries : List WalkEntry)
    (include_pattern exclude_pattern excludedir_pattern : String)
    (recursive follow_symlinks case_sensitive : Bool) : Option (List FilePath) :=
  some (selected_files ro search_dir entries include_pattern exclude_pattern excludedir_pattern
    follow_symlinks case_sensitive)

/-- The final phase of copy_file: when overwriting with
trash_on_overwrite set, attempt trash::delete on the destination
(failures tolerated), then perform fs::copy; success only after the copy
call succeeds, PermissionDenied maps to DESTINATION_IS_READONLY and any
other copy error to GENERIC_FAILURE. -/
def copy_tail (fs : FS) (source_path destination_path : FilePath)
    (overwriting trash_on_overwrite : Bool) : Outcome × List FsEffect :=
  let trashEffs := if overwriting && trash_on_overwrite
    then [FsEffect.trashFile destination_path] else []
  match fs.copyResult source_path destination_path with
  | CopyRes.ok =>
    (Outcome.success, trashEffs ++ [FsEffect.copyCall source_path destination_path])
  | CopyRes.permissionDenied =>
    (Outcome.error FOERR_DESTINATION_IS_READONLY,
      trashEffs ++ [FsEffect.copyCall source_path destination_path])
  | CopyRes.otherError =>
    (Outcome.error FOERR_GENERIC_FAILURE,
      trashEffs ++ [FsEffect.copyCall source_path destination_path])

/-- The check_content step of copy_file, reached when the destination
exists and the earlier checks passed: equal SHA-256 digests short-circuit
to DESTINATION_IS_IDENTICAL, digest failures map to the corresponding
*_NOT_ACCESSIBLE code, and otherwise the overwrite proceeds to the final
phase with overwriting set. -/
def copy_content_check (fs : FS) (source_path destination_path : FilePath)
    (check_content trash_on_overwrite : Bool) : Outcome × List FsEffect :=
  if check_content then
    match fs.digest source_path with
    | some source_hash =>
      match fs.digest destination_path with
      | some destination_hash =>
        if destination_hash == source_hash then
          (Outcome.error FOERR_DESTINATION_IS_IDENTICAL, [])
        else copy_tail fs source_path destination_path true trash_on_overwrite
      | none => (Outcome.error FOERR_DESTINATION_NOT_ACCESSIBLE, [])
    | none => (Outcome.error FOERR_SOURCE_NOT_ACCESSIBLE, [])
  else copy_tail fs source_path destination_path true trash_on_overwrite

/-- The skip_newer step of copy_file, reached when the destination exists
and the earlier checks passed: a source modification time not strictly
greater than the destination's short-circuits to DESTINATION_IS_NEWER, a
missing timestamp maps to the corresponding *_NOT_ACCESSIBLE code, and
otherwise the decision proceeds to the content check. -/
def copy_newer_check (fs : FS) (source_path destination_path : FilePath)
    (s_stat d_stat : FileStat) (skip_newer check_content trash_on_overwrite : Bool) :
    Outcome × List FsEffect :=
  if skip_newer then
    match s_stat.mtime with
    | some s_mtime =>
      match d_stat.mtime with
      | some d_mtime =>
        if s_mtime ≤ d_mtime then (Outcome.error FOERR_DESTINATION_IS_NEWER, [])
        else copy_content_check fs source_path destination_path check_content trash_on_overwrite
      | none => (Outcome.error FOERR_DESTINATION_NOT_ACCESSIBLE, [])
    | none => (Outcome.error FOERR_SOURCE_NOT_ACCESSIBLE, [])
  else copy_content_check fs source_path destination_path check_content trash_on_overwrite

/-- The missing-destination branch of copy_file: pop the file name to
obtain the destination directory (an unpoppable path maps to
CANNOT_CREATE_DIR), require it to be a directory when present, otherwise
create it recursively only under create_directories, then proceed to the
final phase without overwriting. -/
def copy_missing_dest (fs : FS) (source_path destination_path : FilePath)
    (create_directories trash_on_overwrite : Bool) : Outcome × List FsEffect :=
  if destination_path.isEmpty then (Outcome.error FOERR_CANNOT_CREATE_DIR, [])
  else
    let destination_dir := destination_path.dropLast
    match fs.stat destination_dir with
    | some d_dirdata =>
      if !d_dirdata.isDir then (Outcome.error FOERR_CANNOT_CREATE_DIR, [])
      else copy_tail fs source_path destination_path false trash_on_overwrite
    | none =>
      if !create_directories then (Outcome.error FOERR_CANNOT_CREATE_DIR, [])
      else if !(fs.createDirOk destination_dir) then
        (Outcome.error FOERR_CANNOT_CREATE_DIR, [FsEffect.createDirAll destination_dir])
      else
        match copy_tail fs source_path destination_path false trash_on_overwrite with
        | (o, effs) => (o, FsEffect.createDirAll destination_dir :: effs)

/-- copy_file from main.rs. Both paths are canonicalized first (the
source falls back to the empty default path, the destination to its
literal spelling); then the source checks, the destination branch with
its precondition ladder or the directory-creation branch, and finally the
trash and copy calls, mirrored step by step. The second component records
the write-effects performed. -/
def copy_file (fs : FS) (source destination : FilePath)
    (overwrite skip_newer check_content follow_symlinks create_directories
      trash_on_overwrite : Bool) : Outcome × List FsEffect :=
  let source_path := (fs.canonicalize source).getD []
  let destination_path := (fs.canonicalize destination).getD destination
  match fs.stat source_path with
  | none => (Outcome.error FOERR_SOURCE_NOT_ACCESSIBLE, [])
  | some s_stat =>
    if source_path = destination_path then
      (Outcome.error FOERR_DESTINATION_IS_ITSELF, [])
    else if s_stat.isDir then (Outcome.error FOERR_SOURCE_IS_DIR, [])
    else if s_stat.isSymlink && !follow_symlinks then
      (Outcome.error FOERR_SOURCE_IS_SYMLINK, [])
    else
      match fs.stat destination_path with
      | some d_stat =>
        if !overwrite then (Outcome.error FOERR_DESTINATION_EXISTS, [])
        else if d_stat.isDir then (Outcome.error FOERR_DESTINATION_IS_DIR, [])
        else if d_stat.isSymlink && !follow_symlinks then
          (Outcome.error FOERR_DESTINATION_IS_SYMLINK, [])
        else
          copy_newer_check fs source_path destination_path s_stat d_stat
            skip_newer check_content trash_on_overwrite
      | none =>
        copy_missing_dest fs source_path destination_path create_directories trash_on_overwrite

/-- remove_file from main.rs: canonicalize with the empty default, then
the metadata, directory and symlink checks, then trash with a permanent
delete fallback or a plain delete, each failure mapping to
DESTINATION_NOT_ACCESSIBLE. -/
def remove_file (fs : FS) (destination : FilePath)
    (follow_symlinks trash_on_delete : Bool) : Outcome × List FsEffect :=
  let destination_path := (fs.canonicalize destination).getD []
  match fs.stat destination_path with
  | none => (Outcome.error FOERR_DESTINATION_NOT_ACCESSIBLE, [])
  | some d_stat =>
    if d_stat.isDir then (Outcome.error FOERR_DESTINATION_IS_DIR, [])
    else if d_stat.isSymlink && !follow_symlinks then
      (Outcome.error FOERR_DESTINATION_IS_SYMLINK, [])
    else if trash_on_delete then
      if !(fs.trashOk destination_path) then
        if fs.removeOk destination_path then
          (Outcome.success,
            [FsEffect.trashFile destination_path, FsEffect.removeCall destination_path])
        else
          (Outcome.error FOERR_DESTINATION_NOT_ACCESSIBLE,
            [FsEffect.trashFile destination_path, FsEffect.removeCall destination_path])
      else (Outcome.success, [FsEffect.trashFile destination_path])
    else if fs.removeOk destination_path then
      (Outcome.success, [FsEffect.removeCall destination_path])
    else
      (Outcome.error FOERR_DESTINATION_NOT_ACCESSIBLE,
        [FsEffect.removeCall destination_path])

/-- The CopyJobConfig struct of main.rs, restricted to the fields the job
execution engine reads (the pattern strings are the already combined
forms recorded by extract_config). -/
structure CopyJobConfig where
  job_name : String
  source_dir : FilePath
  destination_dir : FilePath
  include_pattern : String
  exclude_pattern : String
  excludedir_pattern : String
  recursive : Bool
  case_sensitive : Bool
  follow_symlinks : Bool
  overwrite : Bool
  skip_newer : Bool
  check_content : Bool
  remove_others_matching : Bool
  create_directories : Bool
  keep_structure : Bool
  trash_on_delete : Bool
  trash_on_overwrite : Bool
  halt_on_errors : Bool
deriving Repr, DecidableEq

/-- Path::strip_prefix on component lists: drop the prefix when it
matches, otherwise fail. -/
def strip_prefix_comps : FilePath → FilePath → Option FilePath
  | [], p => some p
  | _ :: _, [] => none
  | a :: pre, b :: p => if a = b then strip_prefix_comps pre p else none

/-- The destination-relative path run_single_job computes for one copy
candidate: with keep_structure the candidate stripped of the source root
(falling back to the empty path when strip_prefix fails), otherwise just
the candidate's file-name component (the empty path when there is none;
a PathBuf built from the empty string has no components). -/
def destfile_relative (job : CopyJobConfig) (item : FilePath) : FilePath :=
  if job.keep_structure then (strip_prefix_comps job.source_dir item).getD []
  else
    match item.getLast? with
    | none => []
    | some n => if n = "" then [] else [n]

/-- The mutable state of run_single_job's copy loop: the remaining
deletion candidates and the copied counter. -/
structure CopyLoopState where
  files_to_delete : List FilePath
  num_copied : Nat
deriving Repr, DecidableEq

/-- One iteration of run_single_job's copy loop (main.rs lines 1488 to
1579): compute the relative destination; when it is empty report
CANNOT_DETERMINE_DESTFILE and abort with that code under halt_on_errors;
otherwise join it onto the destination directory, drop it from the
deletion candidates when present, invoke copy_file, count successes and
abort with GENERIC_FAILURE on a copy error under halt_on_errors. The
first component is the early-return outcome, if any. -/
def copy_step (fs : FS) (job : CopyJobConfig) (st : CopyLoopState) (item : FilePath) :
    Option Outcome × CopyLoopState :=
  let rel := destfile_relative job item
  if rel.isEmpty then
    if job.halt_on_errors then
      (some (Outcome.error CJERR_CANNOT_DETERMINE_DESTFILE), st)
    else (none, st)
  else
    let destfile_absolute := job.destination_dir ++ rel
    let ftd := if st.files_to_delete.contains destfile_absolute then
      st.files_to_delete.erase destfile_absolute else st.files_to_delete
    match (copy_file fs item destfile_absolute job.overwrite job.skip_newer job.check_content
        job.follow_symlinks job.create_directories job.trash_on_overwrite).1 with
    | Outcome.success => (none, ⟨ftd, st.num_copied + 1⟩)
    | Outcome.error _ =>
      if job.halt_on_errors then
        (some (Outcome.error CJERR_GENERIC_FAILURE), ⟨ftd, st.num_copied⟩)
      else (none, ⟨ftd, st.num_copied⟩)

/-- The copy loop of run_single_job: iterate copy_step, stopping at the
first early return. -/
def copy_loop (fs : FS) (job : CopyJobConfig) :
    CopyLoopState → List FilePath → Option Outcome × CopyLoopState
  | st, [] => (none, st)
  | st, item :: rest =>
    match copy_step fs job st item with
    | (none, st1) => copy_loop fs job st1 rest
    | (some o, st1) => (some o, st1)

/-- The deletion loop of run_single_job (main.rs lines 1581 to 1618):
invoke remove_file on every remaining deletion candidate, counting
successes, aborting with GENERIC_FAILURE on an error under
halt_on_errors. The last component records the paths passed to
remove_file, in order. -/
def delete_loop (fs : FS) (job : CopyJobConfig) :
    Nat → List FilePath → List FilePath → Option Outcome × Nat × List FilePath
  | num_deleted, calls, [] => (none, num_deleted, calls)
  | num_deleted, calls, item :: rest =>
    match (remove_file fs item job.follow_symlinks job.trash_on_delete).1 with
    | Outcome.success => delete_loop fs job (num_deleted + 1) (calls ++ [item]) rest
    | Outcome.error _ =>
      if job.halt_on_errors then
        (some (Outcome.error CJERR_GENERIC_FAILURE), num_deleted, calls ++ [item])
      else delete_loop fs job num_deleted (calls ++ [item]) rest

/-- The observable result of one run_single_job call: the returned
Outcome, the two counters at exit, and the paths that were passed to
remove_file during the run. -/
structure JobRunResult where
  outcome : Outcome
  copied : Nat
  deleted : Nat
  removedCalls : List FilePath
deriving Repr, DecidableEq

/-- run_single_job from main.rs: validate the directories, enumerate the
source (and, under remove_others_matching, the destination) with
list_files_matching, run the copy loop and then the deletion loop,
returning the first early-return outcome or Success. The walk oracle
gives the walkdir stream for each directory. -/
def run_single_job (fs : FS) (ro : RegexOracle) (walk : FilePath → List WalkEntry)
    (job : CopyJobConfig) : JobRunResult :=
  let source_directory := (fs.canonicalize job.source_dir).getD []
  if !(fs.pathExists source_directory) then
    ⟨Outcome.error CJERR_SOURCE_DIR_NOT_EXISTS, 0, 0, []⟩
  else if !(fs.pathExists job.destination_dir) && !job.create_directories then
    ⟨Outcome.error CJERR_DESTINATION_DIR_NOT_EXISTS, 0, 0, []⟩
  else
    match list_files_matching ro job.source_dir (walk job.source_dir) job.include_pattern
        job.exclude_pattern job.excludedir_pattern job.recursive job.follow_symlinks
        job.case_sensitive with
    | none => ⟨Outcome.error CJERR_NO_SOURCE_FILES, 0, 0, []⟩
    | some files_to_copy =>
      let files_to_delete := if job.remove_others_matching then
          (list_files_matching ro job.destination_dir (walk job.destination_dir)
            job.include_pattern job.exclude_pattern job.excludedir_pattern job.recursive
            job.follow_symlinks job.case_sensitive).getD []
        else []
      match copy_loop fs job ⟨files_to_delete, 0⟩ files_to_copy with
      | (some o, st) => ⟨o, st.num_copied, 0, []⟩
      | (none, st) =>
        match delete_loop fs job 0 [] st.files_to_delete with
        | (some o, num_deleted, calls) => ⟨o, st.num_copied, num_deleted, calls⟩
        | (none, num_deleted, calls) => ⟨Outcome.success, st.num_copied, num_deleted, calls⟩

/-- The observable result of run_jobs: the names of the jobs that were
executed, in order, and whether the run was halted early by the global
halt_on_errors policy (the early Err return of the Rust function). -/
structure RunResult where
  executed : List String
  halted : Bool
deriving Repr, DecidableEq

/-- run_jobs from main.rs: iterate the job list in order, execute only
jobs named in active_jobs, and on a job error stop the whole run exactly
when the global halt_on_errors flag is set. -/
def run_jobs (fs : FS) (ro : RegexOracle) (walk : FilePath → List WalkEntry)
    (global_halt_on_errors : Bool) (active_jobs : List String) :
    List CopyJobConfig → RunResult
  | [] => ⟨[], false⟩
  | job :: rest =>
    if active_jobs.contains job.job_name then
      match (run_single_job fs ro walk job).outcome with
      | Outcome.success =>
        let r := run_jobs fs ro walk global_halt_on_errors active_jobs rest
        ⟨job.job_name :: r.executed, r.halted⟩
      | Outcome.error _ =>
        if global_halt_on_errors then ⟨[job.job_name], true⟩
        else
          let r := run_jobs fs ro walk global_halt_on_errors active_jobs rest
          ⟨job.job_name :: r.executed, r.halted⟩
    else run_jobs fs ro walk global_halt_on_errors active_jobs rest

/-- A constant matcher, used to instantiate the regex oracle at concrete
inputs. -/
def matcherOf (b : Bool) : String → Bool := fun _ => b

/-- A filesystem oracle on which every directory exists but no file is
accessible: canonicalization is the identity, metadata always fails, and
every mutating call fails. -/
def fs_allexists : FS where
  canonicalize := fun p => some p
  pathExists := fun _ => true
  stat := fun _ => none
  digest := fun _ => none
  createDirOk := fun _ => false
  copyResult := fun _ _ => CopyRes.otherError
  trashOk := fun _ => false
  removeOk := fun _ => false

/-- A filesystem oracle on which no path exists at all. -/
def fs_nodirs : FS where
  canonicalize := fun p => some p
  pathExists := fun _ => false
  stat := fun _ => none
  digest := fun _ => none
  createDirOk := fun _ => false
  copyResult := fun _ _ => CopyRes.otherError
  trashOk := fun _ => false
  removeOk := fun _ => false

/-- A filesystem oracle with two plain files, one component each: file a
with modification time 1 and file b with modification time 2. -/
def fs_two : FS where
  canonicalize := fun p => some p
  pathExists := fun _ => true
  stat := fun p =>
    if p = ["a"] then some ⟨false, false, some 1⟩
    else if p = ["b"] then some ⟨false, false, some 2⟩
    else none
  digest := fun _ => none
  createDirOk := fun _ => false
  copyResult := fun _ _ => CopyRes.otherError
  trashOk := fun _ => false
  removeOk := fun _ => false

/-- A regex oracle on which every pattern compiles: the anchored pattern
built from the sub-pattern I compiles to a match-everything matcher and
every other pattern to a match-nothing matcher. -/
def ro_pick : RegexOracle := fun p _ =>
  if p = "^I$" then some (matcherOf true) else some (matcherOf false)

/-- A regex oracle on which the anchored pattern built from the single
opening parenthesis fails to compile while every other pattern compiles
to a match-nothing matcher. -/
def ro_incfail : RegexOracle := fun p _ =>
  if p = "^($" then none else some (matcherOf false)

/-- A regex oracle on which every pattern fails to compile. -/
def ro_none : RegexOracle := fun _ _ => none

/-- A regex oracle on which the anchored empty-group pattern compiles to
the matcher accepting only the empty string, and every other pattern to a
match-nothing matcher. -/
def ro_emptygroup : RegexOracle := fun p _ =>
  if p = "^()$" then some matchEmptyOnly else some (matcherOf false)

/-- A walk oracle whose stream is empty for every directory. -/
def walk_empty : FilePath → List WalkEntry := fun _ => []

/-- A walk oracle for the reconciliation scenario: the source directory
holds the single file f, the destination directory holds the files f and
g, all at the top level. -/
def walk_recon : FilePath → List WalkEntry := fun p =>
  if p = ["s"] then [⟨[], "f", false, false⟩]
  else [⟨[], "f", false, false⟩, ⟨[], "g", false, false⟩]

/-- A walk oracle whose source stream holds one entry with an empty
file-name string (the lossy conversion of a non-representable name) and
whose other streams are empty. -/
def walk_emptyname : FilePath → List WalkEntry := fun p =>
  if p = ["s"] then [⟨[], "", false, false⟩] else []

/-- A symbolic-link entry at the top level of a walk. -/
def entry_symlink : WalkEntry := ⟨[], "file.txt", false, true⟩

/-- A plain-file entry named a.txt at the top level of a walk. -/
def entry_atxt : WalkEntry := ⟨[], "a.txt", false, false⟩

/-- A plain-file entry whose name is the single star character, a legal
file name on Unix filesystems. -/
def entry_star : WalkEntry := ⟨[], "*", false, false⟩

/-- A job over source directory s and destination directory d with the
default-like flag bundle used by the concrete scenarios: not recursive,
case sensitive, following symlinks, overwriting, structure kept, halting
disabled and reconciliation disabled. -/
def job_base : CopyJobConfig where
  job_name := "j"
  source_dir := ["s"]
  destination_dir := ["d"]
  include_pattern := "I"
  exclude_pattern := "E"
  excludedir_pattern := "D"
  recursive := false
  case_sensitive := true
  follow_symlinks := true
  overwrite := true
  skip_newer := false
  check_content := false
  remove_others_matching := false
  create_directories := true
  keep_structure := true
  trash_on_delete := false
  trash_on_overwrite := false
  halt_on_errors := false

/-- The job of the reconciliation scenario: job_base with
remove_others_matching enabled. -/
def job_recon : CopyJobConfig :=
  { job_base with remove_others_matching := true }

/-- The job of the empty-relative-destination scenario: job_base with
keep_structure disabled and halt_on_errors enabled. -/
def job_flat_halt : CopyJobConfig :=
  { job_base with keep_structure := false, halt_on_errors := true }

/-- The initial copy-loop state with no deletion candidates. -/
def st_empty : CopyLoopState := ⟨[], 0⟩

/-- The metadata of a plain file with modification time 0. -/
def statPlainFile : FileStat := ⟨false, false, some 0⟩

end Copyjob

namespace Copyjob

/-- CLAIM C3 (amended): the enumerator filter never keeps an entry whose
file type is a directory, and it keeps an entry reported as a symbolic
link only when follow_symlinks is unset — the filter skips symlinks
exactly when follow_symlinks is set, the opposite of the claimed
behaviour. -/
theorem c3_amended (inc exc excd : String → Bool) (follow_symlinks : Bool) (e : WalkEntry)
    (h : entry_selected inc exc excd follow_symlinks e = true) :
    e.isDir = false ∧ (e.isSymlink = true → follow_symlinks = false) := by
  cases hd : e.isDir <;> cases hs : e.isSymlink <;> cases follow_symlinks <;>
    simp_all [entry_selected]

/-- CLAIM C3 counterexample: with follow_symlinks unset, a symbolic-link
entry passing the name filters is kept by the enumerator filter, so the
enumerator does yield a symlink although followSymlinks is not set. -/
theorem c3_counterexample :
    entry_selected (matcherOf true) (matcherOf false) (matcherOf false) false entry_symlink = true ∧
    entry_symlink.isSymlink = true := by
  constructor <;> decide

/-- Witness for c3_amended at a concrete kept entry. -/
theorem c3_witness :
    entry_atxt.isDir = false ∧ (entry_atxt.isSymlink = true → true = false) :=
  c3_amended (matcherOf true) (matcherOf false) (matcherOf false) true entry_atxt (by decide)

/-- CLAIM C4 (amended): a copy candidate whose computed source-relative
destination path is empty is reported as CANNOT_DETERMINE_DESTFILE, and
with halt_on_errors set the copy loop aborts immediately with the
job-level outcome CannotDetermineDestFile (2021) — not GenericFailure;
without halt_on_errors the candidate is skipped. -/
theorem c4_amended (fs : FS) (job : CopyJobConfig) (st : CopyLoopState) (item : FilePath)
    (h : destfile_relative job item = []) :
    copy_step fs job st item =
      (if job.halt_on_errors then some (Outcome.error CJERR_CANNOT_DETERMINE_DESTFILE)
        else none, st) := by
  cases hh : job.halt_on_errors <;> simp [copy_step, h, hh]

/-- CLAIM C4 counterexample: a run on a candidate with an empty relative
destination and halt_on_errors set returns the job outcome
CannotDetermineDestFile (2021), which differs from the claimed
GenericFailure (2001). -/
theorem c4_counterexample :
    destfile_relative job_flat_halt ["s", ""] = [] ∧
    job_flat_halt.halt_on_errors = true ∧
    (run_single_job fs_allexists ro_pick walk_emptyname job_flat_halt).outcome =
      Outcome.error CJERR_CANNOT_DETERMINE_DESTFILE ∧
    (run_single_job fs_allexists ro_pick walk_emptyname job_flat_halt).outcome ≠
      Outcome.error CJERR_GENERIC_FAILURE := by
  refine ⟨by decide, by decide, by decide, by decide⟩

/-- Witness for c4_amended at a concrete aborting copy step. -/
theorem c4_witness :
    copy_step fs_allexists job_flat_halt st_empty ["s", ""] =
      (some (Outcome.error CJERR_CANNOT_DETERMINE_DESTFILE), st_empty) := by
  rw [c4_amended fs_allexists job_flat_halt st_empty ["s", ""] (by decide)]
  decide

/-- CLAIM C6 (amended): when the destination exists, overwrite is unset
and the earlier source checks pass (source accessible, distinct from the
destination, not a directory, not a symlink with follow_symlinks unset),
copy_file returns DestinationExists and performs no filesystem write:
the effect list is empty, so the destination bytes and mtime are
untouched. -/
theorem c6_amended (fs : FS) (source destination : FilePath)
    (skip_newer check_content follow_symlinks create_directories trash_on_overwrite : Bool)
    (s_stat d_stat : FileStat)
    (hs : fs.stat ((fs.canonicalize source).getD []) = some s_stat)
    (hneq : (fs.canonicalize source).getD [] ≠ (fs.canonicalize destination).getD destination)
    (hsd : s_stat.isDir = false)
    (hss : (s_stat.isSymlink && !follow_symlinks) = false)
    (hd : fs.stat ((fs.canonicalize destination).getD destination) = some d_stat) :
    copy_file fs source destination false skip_newer check_content follow_symlinks
      create_directories trash_on_overwrite = (Outcome.error FOERR_DESTINATION_EXISTS, []) := by
  simp [copy_file, hs, hneq, hsd, hss, hd]

/-- CLAIM C6 counterexample: an invocation with overwrite unset against
an existing destination that is the source itself returns
DestinationIsItself, not DestinationExists — the self-copy check fires
before the overwrite check, so the claim does not hold for every
invocation with an existing destination. -/
theorem c6_counterexample :
    fs_two.stat ((fs_two.canonicalize ["a"]).getD ["a"]) = some ⟨false, false, some 1⟩ ∧
    copy_file fs_two ["a"] ["a"] false false false true false false =
      (Outcome.error FOERR_DESTINATION_IS_ITSELF, []) ∧
    Outcome.error FOERR_DESTINATION_IS_ITSELF ≠ Outcome.error FOERR_DESTINATION_EXISTS := by
  refine ⟨by decide, by decide, by decide⟩

/-- Witness for c6_amended on the two-file filesystem oracle. -/
theorem c6_witness :
    copy_file fs_two ["a"] ["b"] false false false true false false =
      (Outcome.error FOERR_DESTINATION_EXISTS, []) :=
  c6_amended fs_two ["a"] ["b"] false false true false false ⟨false, false, some 1⟩
    ⟨false, false, some 2⟩ (by decide) (by decide) (by decide) (by decide) (by decide)

/-- CLAIM C7: with skip_newer set, both files present and the earlier
checks passed, a source modification time not strictly greater than the
destination one (equality included) yields DestinationIsNewer, and a
strictly greater one passes the precondition: the result is exactly the
content-check continuation. -/
theorem c7_holds (fs : FS) (source destination : FilePath)
    (check_content follow_symlinks create_directories trash_on_overwrite : Bool)
    (s_stat d_stat : FileStat) (s_mtime d_mtime : Nat)
    (hs : fs.stat ((fs.canonicalize source).getD []) = some s_stat)
    (hneq : (fs.canonicalize source).getD [] ≠ (fs.canonicalize destination).getD destination)
    (hsd : s_stat.isDir = false)
    (hss : (s_stat.isSymlink && !follow_symlinks) = false)
    (hd : fs.stat ((fs.canonicalize destination).getD destination) = some d_stat)
    (hdd : d_stat.isDir = false)
    (hds : (d_stat.isSymlink && !follow_symlinks) = false)
    (hsm : s_stat.mtime = some s_mtime)
    (hdm : d_stat.mtime = some d_mtime) :
    (s_mtime ≤ d_mtime →
      copy_file fs source destination true true check_content follow_symlinks
        create_directories trash_on_overwrite = (Outcome.error FOERR_DESTINATION_IS_NEWER, [])) ∧
    (d_mtime < s_mtime →
      copy_file fs source destination true true check_content follow_symlinks
        create_directories trash_on_overwrite =
        copy_content_check fs ((fs.canonicalize source).getD [])
          ((fs.canonicalize destination).getD destination) check_content trash_on_overwrite) := by
  constructor
  · intro hle
    simp [copy_file, copy_newer_check, hs, hneq, hsd, hss, hd, hdd, hds, hsm, hdm, hle]
  · intro hlt
    have hn : ¬ s_mtime ≤ d_mtime := not_le.mpr hlt
    simp [copy_file, copy_newer_check, hs, hneq, hsd, hss, hd, hdd, hds, hsm, hdm, hn]

/-- Witness for c7_holds with source mtime 1 and destination mtime 2. -/
theorem c7_witness :
    copy_file fs_two ["a"] ["b"] true true false true false false =
      (Outcome.error FOERR_DESTINATION_IS_NEWER, []) :=
  (c7_holds fs_two ["a"] ["b"] false true false false ⟨false, false, some 1⟩
    ⟨false, false, some 2⟩ 1 2 (by decide) (by decide) (by decide) (by decide) (by decide)
    (by decide) (by decide) (by decide) (by decide)).1 (by decide)

/-- CLAIM C8 (amended): when a pattern fails to compile the enumerator
substitutes RE_MATCH_NO_FILE, whose anchored star pattern matches
exactly the file name consisting of one star and no other name; since a
file named with a single star is legal on Unix, the substituted matcher
is not a match-nothing matcher in general, though every other name as
well as every tree without such a file behaves as no files found. -/
theorem c8_amended (ro : RegexOracle) (pat : String) (ci : Bool)
    (h : ro ("^" ++ pat ++ "$") ci = none) :
    build_anchored_matcher ro pat ci = matchNoFile ∧
    matchNoFile "*" = true ∧
    (∀ s, s ≠ "*" → matchNoFile s = false) := by
  refine ⟨?_, by decide, ?_⟩
  · simp [build_anchored_matcher, h]
  · intro s hs
    simpa [matchNoFile, beq_eq_false_iff_ne] using hs

/-- CLAIM C8 counterexample: with a non-compiling include pattern, a
file literally named with a single star is matched by the substituted
matcher and the enumerator yields it, so the caller does not observe no
files found. -/
theorem c8_counterexample :
    matchNoFile "*" = true ∧
    list_files_matching ro_incfail ["src"] [entry_star] "(" "x" "y" false false true =
      some [["src", "*"]] := by
  constructor <;> decide

/-- Witness for c8_amended on the always-failing regex oracle. -/
theorem c8_witness :
    build_anchored_matcher ro_none "(" true = matchNoFile ∧
    matchNoFile "*" = true ∧
    matchNoFile "a.txt" = false := by
  have h := c8_amended ro_none "(" true rfl
  exact ⟨h.1, h.2.1, h.2.2 "a.txt" (by decide)⟩

/-- CLAIM C10: a patterns_include list with no non-empty string combines
to the pattern of an empty group in parentheses; the anchored matcher of
that pattern accepts only the empty file name, so over entries with
non-empty file names the enumerator selects zero files — the include
pattern does not default to match-everything. -/
theorem c10_holds (pats : List String) (ro : RegexOracle) (search_dir : FilePath)
    (entries : List WalkEntry) (exclude_pattern excludedir_pattern : String)
    (recursive follow_symlinks case_sensitive : Bool)
    (hall : ∀ s ∈ pats, s = "")
    (hro : ro "^()$" (!case_sensitive) = some matchEmptyOnly)
    (hfn : ∀ e ∈ entries, e.fileName ≠ "") :
    combine_regexp_patterns (collect_nonempty pats) = "()" ∧
    list_files_matching ro search_dir entries (combine_regexp_patterns (collect_nonempty pats))
      exclude_pattern excludedir_pattern recursive follow_symlinks case_sensitive = some [] := by
  have hempty : collect_nonempty pats = [] := by
    simp only [collect_nonempty, List.filter_eq_nil_iff]
    intro a ha
    simp [hall a ha]
  have hcomb : combine_regexp_patterns (collect_nonempty pats) = "()" := by
    rw [hempty]; decide
  refine ⟨hcomb, ?_⟩
  rw [hcomb]
  have hpat : ("^" ++ "()" ++ "$" : String) = "^()$" := by decide
  simp only [list_files_matching, selected_files, build_anchored_matcher, hpat, hro,
    Option.getD_some, Option.some.injEq]
  have hfilter : ∀ em edm : String → Bool,
      entries.filter (entry_selected matchEmptyOnly em edm follow_symlinks) = [] := by
    intro em edm
    rw [List.filter_eq_nil_iff]
    intro e he
    simp [entry_selected, matchEmptyOnly, hfn e he]
  rw [hfilter]
  simp

/-- Witness for c10_holds at an all-empty pattern list and one entry. -/
theorem c10_witness :
    combine_regexp_patterns (collect_nonempty [""]) = "()" ∧
    list_files_matching ro_emptygroup ["s"] [entry_atxt]
      (combine_regexp_patterns (collect_nonempty [""])) "E" "D" false true true = some [] := by
  have h := c10_holds [""] ro_emptygroup ["s"] [entry_atxt] "E" "D" false true true
    (by simp) (by rfl) (by decide)
  exact h

/-- The final copy phase returns Success, DestinationIsReadonly or
GenericFailure. -/
theorem copy_tail_code (fs : FS) (sp dp : FilePath) (ov tw : Bool) :
    (copy_tail fs sp dp ov tw).1 = Outcome.success ∨
    (copy_tail fs sp dp ov tw).1 = Outcome.error FOERR_DESTINATION_IS_READONLY ∨
    (copy_tail fs sp dp ov tw).1 = Outcome.error FOERR_GENERIC_FAILURE := by
  unfold copy_tail
  cases fs.copyResult sp dp <;> simp

/-- Outcome codes reachable from the content-check phase. -/
theorem copy_content_check_code (fs : FS) (sp dp : FilePath) (cc tw : Bool) :
    (copy_content_check fs sp dp cc tw).1 = Outcome.success ∨
    (copy_content_check fs sp dp cc tw).1 = Outcome.error FOERR_DESTINATION_IS_READONLY ∨
    (copy_content_check fs sp dp cc tw).1 = Outcome.error FOERR_GENERIC_FAILURE ∨
    (copy_content_check fs sp dp cc tw).1 = Outcome.error FOERR_DESTINATION_IS_IDENTICAL ∨
    (copy_content_check fs sp dp cc tw).1 = Outcome.error FOERR_DESTINATION_NOT_ACCESSIBLE ∨
    (copy_content_check fs sp dp cc tw).1 = Outcome.error FOERR_SOURCE_NOT_ACCESSIBLE := by
  unfold copy_content_check
  rcases copy_tail_code fs sp dp true tw with h | h | h <;>
    (repeat' split) <;> simp [h]

/-- Outcome codes reachable from the skip_newer phase. -/
theorem copy_newer_check_code (fs : FS) (sp dp : FilePath) (ss ds : FileStat) (sn cc tw : Bool) :
    (copy_newer_check fs sp dp ss ds sn cc tw).1 = Outcome.success ∨
    (copy_newer_check fs sp dp ss ds sn cc tw).1 = Outcome.error FOERR_DESTINATION_IS_READONLY ∨
    (copy_newer_check fs sp dp ss ds sn cc tw).1 = Outcome.error FOERR_GENERIC_FAILURE ∨
    (copy_newer_check fs sp dp ss ds sn cc tw).1 = Outcome.error FOERR_DESTINATION_IS_IDENTICAL ∨
    (copy_newer_check fs sp dp ss ds sn cc tw).1 = Outcome.error FOERR_DESTINATION_NOT_ACCESSIBLE ∨
    (copy_newer_check fs sp dp ss ds sn cc tw).1 = Outcome.error FOERR_SOURCE_NOT_ACCESSIBLE ∨
    (copy_newer_check fs sp dp ss ds sn cc tw).1 = Outcome.error FOERR_DESTINATION_IS_NEWER := by
  unfold copy_newer_check
  rcases copy_content_check_code fs sp dp cc tw with h | h | h | h | h | h <;>
    (repeat' split) <;> simp [h]

/-- The missing-destination branch never returns SOURCE_NOT_EXISTS or
CANNOT_CREATE_FILE. -/
theorem copy_missing_dest_ok (fs : FS) (sp dp : FilePath) (cd tw : Bool) :
    (copy_missing_dest fs sp dp cd tw).1 ≠ Outcome.error FOERR_SOURCE_NOT_EXISTS ∧
    (copy_missing_dest fs sp dp cd tw).1 ≠ Outcome.error FOERR_CANNOT_CREATE_FILE := by
  have hct := copy_tail_code fs sp dp false tw
  unfold copy_missing_dest
  by_cases he : dp.isEmpty <;> simp only [he, if_true, Bool.false_eq_true, if_false]
  · exact ⟨by decide, by decide⟩
  · cases hdd : fs.stat dp.dropLast with
    | some d_dirdata =>
      by_cases hd : d_dirdata.isDir <;> simp [hd]
      · rcases hct with h | h | h <;> rw [h] <;> exact ⟨by decide, by decide⟩
      · exact ⟨by decide, by decide⟩
    | none =>
      by_cases hc : cd <;> simp [hc]
      · by_cases hk : fs.createDirOk dp.dropLast <;> simp [hk]
        · rcases hcp : copy_tail fs sp dp false tw with ⟨o, effs⟩
          rw [hcp] at hct
          simp only [hcp]
          rcases hct with h | h | h <;> simp only [] at h <;> rw [h] <;>
            exact ⟨by decide, by decide⟩
        · exact ⟨by decide, by decide⟩
      · exact ⟨by decide, by decide⟩

/-- copy_file never returns SOURCE_NOT_EXISTS or CANNOT_CREATE_FILE. -/
theorem copy_file_ok (fs : FS) (source destination : FilePath)
    (overwrite skip_newer check_content follow_symlinks create_directories
      trash_on_overwrite : Bool) :
    ((copy_file fs source destination overwrite skip_newer check_content follow_symlinks
        create_directories trash_on_overwrite).1 ≠ Outcome.error FOERR_SOURCE_NOT_EXISTS) ∧
    ((copy_file fs source destination overwrite skip_newer check_content follow_symlinks
        create_directories trash_on_overwrite).1 ≠ Outcome.error FOERR_CANNOT_CREATE_FILE) := by
  unfold copy_file
  rcases hstat : fs.stat ((fs.canonicalize source).getD []) with _ | s_stat <;>
    simp only [hstat]
  · exact ⟨by decide, by decide⟩
  · by_cases h1 : (fs.canonicalize source).getD [] = (fs.canonicalize destination).getD destination
    · rw [if_pos h1]
      exact ⟨by decide, by decide⟩
    · simp only [if_neg h1]
      by_cases h2 : s_stat.isDir <;> simp [h2]
      · exact ⟨by decide, by decide⟩
      · by_cases h3 : s_stat.isSymlink = true ∧ follow_symlinks = false <;> simp [h3]
        · exact ⟨by decide, by decide⟩
        · rcases hds : fs.stat ((fs.canonicalize destination).getD destination)
            with _ | d_stat <;> simp only [hds]
          · exact copy_missing_dest_ok fs ((fs.canonicalize source).getD [])
              ((fs.canonicalize destination).getD destination) create_directories
              trash_on_overwrite
          · by_cases h4 : overwrite <;> simp [h4]
            · by_cases h5 : d_stat.isDir <;> simp [h5]
              · exact ⟨by decide, by decide⟩
              · by_cases h6 : d_stat.isSymlink = true ∧ follow_symlinks = false <;> simp [h6]
                · exact ⟨by decide, by decide⟩
                · rcases copy_newer_check_code fs ((fs.canonicalize source).getD [])
                      ((fs.canonicalize destination).getD destination) s_stat d_stat
                      skip_newer check_content trash_on_overwrite
                    with h | h | h | h | h | h | h <;> rw [h] <;> exact ⟨by decide, by decide⟩
            · exact ⟨by decide, by decide⟩

/-- remove_file never returns SOURCE_NOT_EXISTS or CANNOT_CREATE_FILE. -/
theorem remove_file_ok (fs : FS) (destination : FilePath) (follow_symlinks trash_on_delete : Bool) :
    ((remove_file fs destination follow_symlinks trash_on_delete).1 ≠
      Outcome.error FOERR_SOURCE_NOT_EXISTS) ∧
    ((remove_file fs destination follow_symlinks trash_on_delete).1 ≠
      Outcome.error FOERR_CANNOT_CREATE_FILE) := by
  unfold remove_file
  rcases hstat : fs.stat ((fs.canonicalize destination).getD []) with _ | d_stat <;>
    simp only [hstat]
  all_goals try exact ⟨by decide, by decide⟩
  cases h1 : d_stat.isDir <;> cases h2 : d_stat.isSymlink <;> cases follow_symlinks <;>
    cases trash_on_delete <;> cases h4 : fs.trashOk ((fs.canonicalize destination).getD []) <;>
    cases h5 : fs.removeOk ((fs.canonicalize destination).getD []) <;>
    simp [h1, h2, h4, h5] <;> exact ⟨by decide, by decide⟩

/-- CLAIM C9: copy_file and remove_file never return the taxonomy codes
FOERR_SOURCE_NOT_EXISTS (1041) or FOERR_CANNOT_CREATE_FILE (1032) on any
input: a missing or unreadable source is always reported as
SourceNotAccessible, so those two members of the closed file-operation
error enumeration are unreachable outcomes. -/
theorem c9_holds (fs : FS) (source destination : FilePath)
    (overwrite skip_newer check_content follow_symlinks create_directories
      trash_on_overwrite trash_on_delete : Bool) :
    ((copy_file fs source destination overwrite skip_newer check_content follow_symlinks
        create_directories trash_on_overwrite).1 ≠ Outcome.error FOERR_SOURCE_NOT_EXISTS) ∧
    ((copy_file fs source destination overwrite skip_newer check_content follow_symlinks
        create_directories trash_on_overwrite).1 ≠ Outcome.error FOERR_CANNOT_CREATE_FILE) ∧
    ((remove_file fs destination follow_symlinks trash_on_delete).1 ≠
      Outcome.error FOERR_SOURCE_NOT_EXISTS) ∧
    ((remove_file fs destination follow_symlinks trash_on_delete).1 ≠
      Outcome.error FOERR_CANNOT_CREATE_FILE) := by
  obtain ⟨h1, h2⟩ := copy_file_ok fs source destination overwrite skip_newer check_content
    follow_symlinks create_directories trash_on_overwrite
  obtain ⟨h3, h4⟩ := remove_file_ok fs destination follow_symlinks trash_on_delete
  exact ⟨h1, h2, h3, h4⟩

/-- Witness for c9_holds at a concrete invocation. -/
theorem c9_witness :
    ((copy_file fs_two ["a"] ["b"] true true true true true true).1 ≠
      Outcome.error FOERR_SOURCE_NOT_EXISTS) ∧
    ((remove_file fs_two ["b"] true true).1 ≠ Outcome.error FOERR_CANNOT_CREATE_FILE) := by
  obtain ⟨h1, _, _, h4⟩ := c9_holds fs_two ["a"] ["b"] true true true true true true true
  exact ⟨h1, h4⟩

/-- The deletion loop aborts, if at all, only with GenericFailure. -/
theorem delete_loop_first (fs : FS) (job : CopyJobConfig) :
    ∀ (l : List FilePath) (n : Nat) (calls : List FilePath),
      (delete_loop fs job n calls l).1 = none ∨
      (delete_loop fs job n calls l).1 = some (Outcome.error CJERR_GENERIC_FAILURE) := by
  intro l
  induction l with
  | nil => intro n calls; left; rfl
  | cons item rest ih =>
    intro n calls
    unfold delete_loop
    rcases hr : (remove_file fs item job.follow_symlinks job.trash_on_delete).1 with _ | code <;>
      simp only [hr]
    · exact ih _ _
    · by_cases hh : job.halt_on_errors <;> simp [hh]
      exact ih _ _

/-- CLAIM C1 (amended): a job whose enumeration of the source directory
yields zero copy candidates never returns NoSourceFiles and reports a
copied count of zero; the enumerator always returns a list, so the
NoSourceFiles branch of run_single_job is unreachable and such a job
ends in Success unless a deletion error under halt_on_errors yields
GenericFailure. -/
theorem c1_amended (fs : FS) (ro : RegexOracle) (walk : FilePath → List WalkEntry)
    (job : CopyJobConfig)
    (hzero : (list_files_matching ro job.source_dir (walk job.source_dir) job.include_pattern
      job.exclude_pattern job.excludedir_pattern job.recursive job.follow_symlinks
      job.case_sensitive).getD [] = []) :
    (run_single_job fs ro walk job).outcome ≠ Outcome.error CJERR_NO_SOURCE_FILES ∧
    (run_single_job fs ro walk job).copied = 0 := by
  have hsel : selected_files ro job.source_dir (walk job.source_dir) job.include_pattern
      job.exclude_pattern job.excludedir_pattern job.follow_symlinks job.case_sensitive = [] := by
    simpa [list_files_matching] using hzero
  unfold run_single_job
  by_cases h1 : (!fs.pathExists ((fs.canonicalize job.source_dir).getD [])) = true
  · simp only [h1, if_true]
    exact ⟨by decide, by simp⟩
  · rw [Bool.not_eq_true] at h1
    simp only [h1, Bool.false_eq_true, if_false]
    by_cases h2 : (!fs.pathExists job.destination_dir && !job.create_directories) = true
    · simp only [h2, if_true]
      exact ⟨by decide, by simp⟩
    · rw [Bool.not_eq_true] at h2
      simp only [h2, Bool.false_eq_true, if_false, list_files_matching, hsel]
      simp only [copy_loop]
      set ftd := (if job.remove_others_matching = true then
          selected_files ro job.destination_dir (walk job.destination_dir) job.include_pattern
            job.exclude_pattern job.excludedir_pattern job.follow_symlinks job.case_sensitive
        else []) with hftd
      rcases hdl : delete_loop fs job 0 [] ftd with ⟨ob, n2, calls⟩
      rcases delete_loop_first fs job ftd 0 [] with h | h <;> rw [hdl] at h <;>
        simp only [] at h <;> subst h <;> simp [hdl] <;> decide

/-- CLAIM C1 counterexample: a concrete job whose enumeration yields
zero copy candidates returns Success with copied and deleted both zero,
not the claimed NoSourceFiles error outcome. -/
theorem c1_counterexample :
    (list_files_matching ro_pick ["s"] (walk_empty ["s"]) "I" "E" "D" false true true).getD []
      = [] ∧
    (run_single_job fs_allexists ro_pick walk_empty job_base).outcome = Outcome.success ∧
    (run_single_job fs_allexists ro_pick walk_empty job_base).copied = 0 ∧
    (run_single_job fs_allexists ro_pick walk_empty job_base).deleted = 0 ∧
    (run_single_job fs_allexists ro_pick walk_empty job_base).outcome ≠
      Outcome.error CJERR_NO_SOURCE_FILES := by
  refine ⟨by decide, by decide, by decide, by decide, by decide⟩

/-- Witness for c1_amended at a job with an empty walk stream. -/
theorem c1_witness :
    (list_files_matching ro_pick job_base.source_dir (walk_empty job_base.source_dir)
      job_base.include_pattern job_base.exclude_pattern job_base.excludedir_pattern
      job_base.recursive job_base.follow_symlinks job_base.case_sensitive).getD [] = [] ∧
    ((run_single_job fs_allexists ro_pick walk_empty job_base).outcome ≠
      Outcome.error CJERR_NO_SOURCE_FILES ∧
    (run_single_job fs_allexists ro_pick walk_empty job_base).copied = 0) :=
  ⟨by decide, c1_amended fs_allexists ro_pick walk_empty job_base (by decide)⟩

/-- CLAIM C5: the run controller terminates the whole run early exactly
when the global halt_on_errors flag is set and some active job returns
an error outcome; with the global flag unset every active job is
executed in order, whatever the outcomes — a job-level halt_on_errors
flag never prevents the controller from proceeding to the next active
job. -/
theorem c5_holds (fs : FS) (ro : RegexOracle) (walk : FilePath → List WalkEntry)
    (global_halt_on_errors : Bool) (active_jobs : List String) (jobs : List CopyJobConfig) :
    ((run_jobs fs ro walk global_halt_on_errors active_jobs jobs).halted = true ↔
      (global_halt_on_errors = true ∧ ∃ job ∈ jobs, active_jobs.contains job.job_name = true ∧
        (run_single_job fs ro walk job).outcome ≠ Outcome.success)) ∧
    (global_halt_on_errors = false →
      (run_jobs fs ro walk global_halt_on_errors active_jobs jobs).executed =
        (jobs.filter (fun j => active_jobs.contains j.job_name)).map
          (fun j => j.job_name)) := by
  induction jobs with
  | nil => simp [run_jobs]
  | cons job rest ih =>
    obtain ⟨ih1, ih2⟩ := ih
    by_cases hact : active_jobs.contains job.job_name
    · rcases hout : (run_single_job fs ro walk job).outcome with _ | code
      · constructor
        · simp only [run_jobs, hact, if_true, hout]
          rw [ih1]
          simp [hout, hact]
        · intro hgh
          have hmem : job.job_name ∈ active_jobs := by simpa using hact
          simp only [run_jobs, hact, if_true, hout]
          simp [ih2 hgh, hact, List.filter_cons, hmem]
      · cases hgh : global_halt_on_errors
        · subst hgh
          constructor
          · simp only [run_jobs, hact, if_true, hout, Bool.false_eq_true, if_false]
            rw [ih1]
            simp
          · intro _
            have hmem : job.job_name ∈ active_jobs := by simpa using hact
            simp only [run_jobs, hact, if_true, hout, Bool.false_eq_true, if_false]
            simp [ih2 rfl, hact, List.filter_cons, hmem]
        · subst hgh
          constructor
          · have hmem : job.job_name ∈ active_jobs := by simpa using hact
            simp [run_jobs, hact, hout, hmem]
          · intro hgh2
            exact absurd hgh2 (by decide)
    · have hnmem : job.job_name ∉ active_jobs := by simpa using hact
      constructor
      · simp only [run_jobs, hact, Bool.false_eq_true, if_false]
        rw [ih1]
        simp [hnmem]
      · intro hgh
        simp only [run_jobs, hact, Bool.false_eq_true, if_false]
        simp [ih2 hgh, hnmem, List.filter_cons]

/-- Witness for c5_holds: one failing active job under the global flag
halts the run. -/
theorem c5_witness :
    (run_jobs fs_nodirs ro_pick walk_empty true ["j"] [job_base]).halted = true := by
  have h := (c5_holds fs_nodirs ro_pick walk_empty true ["j"] [job_base]).1
  exact h.mpr ⟨rfl, job_base, by simp, by decide, by decide⟩


/-- The copy step leaves the deletion candidates untouched except for
erasing the computed destination when present. -/
theorem copy_step_ftd (fs : FS) (job : CopyJobConfig) (st : CopyLoopState) (item : FilePath)
    (hrel : (destfile_relative job item).isEmpty = false) :
    ((copy_step fs job st item).2).files_to_delete =
      (if st.files_to_delete.contains (job.destination_dir ++ destfile_relative job item) = true
        then st.files_to_delete.erase (job.destination_dir ++ destfile_relative job item)
        else st.files_to_delete) := by
  rcases hc : (copy_file fs item (job.destination_dir ++ destfile_relative job item)
      job.overwrite job.skip_newer job.check_content job.follow_symlinks
      job.create_directories job.trash_on_overwrite).1 with _ | code <;>
    cases hh : job.halt_on_errors <;>
    simp only [copy_step, hrel, Bool.false_eq_true, if_false, hc, hh, if_true]

/-- The deletion-candidate list after one copy step is the previous one
or the previous one with the computed destination erased. -/
theorem copy_step_state (fs : FS) (job : CopyJobConfig) (st : CopyLoopState) (item : FilePath) :
    ((copy_step fs job st item).2).files_to_delete = st.files_to_delete ∨
    ((copy_step fs job st item).2).files_to_delete =
      st.files_to_delete.erase (job.destination_dir ++ destfile_relative job item) := by
  by_cases hrel : (destfile_relative job item).isEmpty = true
  · by_cases hh : job.halt_on_errors <;> simp [copy_step, hrel, hh]
  · rw [Bool.not_eq_true] at hrel
    rw [copy_step_ftd fs job st item hrel]
    by_cases hcon : st.files_to_delete.contains
        (job.destination_dir ++ destfile_relative job item) = true
    · rw [if_pos hcon]
      right
      rfl
    · rw [if_neg hcon]
      left
      rfl

/-- One copy step only shrinks the deletion-candidate list. -/
theorem copy_step_sub (fs : FS) (job : CopyJobConfig) (st : CopyLoopState) (item : FilePath) :
    ((copy_step fs job st item).2).files_to_delete.Sublist st.files_to_delete := by
  rcases copy_step_state fs job st item with h | h <;> rw [h] <;>
    first
      | exact List.Sublist.refl _
      | exact List.erase_sublist _ _

/-- A path absent from the deletion candidates stays absent after one
copy step. -/
theorem copy_step_not_mem (fs : FS) (job : CopyJobConfig) (st : CopyLoopState) (item : FilePath)
    (p : FilePath) (h : p ∉ st.files_to_delete) :
    p ∉ ((copy_step fs job st item).2).files_to_delete :=
  fun hmem => h ((copy_step_sub fs job st item).subset hmem)

/-- After processing a candidate with a non-empty relative destination,
its computed destination is no longer among the deletion candidates,
provided those were duplicate-free. -/
theorem copy_step_removes (fs : FS) (job : CopyJobConfig) (st : CopyLoopState) (item : FilePath)
    (hnd : st.files_to_delete.Nodup) (hrel : (destfile_relative job item).isEmpty = false) :
    (job.destination_dir ++ destfile_relative job item) ∉
      ((copy_step fs job st item).2).files_to_delete := by
  rw [copy_step_ftd fs job st item hrel]
  by_cases hcon : st.files_to_delete.contains
      (job.destination_dir ++ destfile_relative job item) = true
  · rw [if_pos hcon]
    exact hnd.not_mem_erase
  · rw [if_neg hcon]
    simpa [List.contains] using hcon

/-- A path absent from the deletion candidates stays absent through the
whole copy loop. -/
theorem copy_loop_not_mem (fs : FS) (job : CopyJobConfig) (p : FilePath) :
    ∀ (items : List FilePath) (st : CopyLoopState), p ∉ st.files_to_delete →
      p ∉ ((copy_loop fs job st items).2).files_to_delete := by
  intro items
  induction items with
  | nil => intro st h; simpa [copy_loop] using h
  | cons item rest ih =>
    intro st h
    have h1 := copy_step_not_mem fs job st item p h
    unfold copy_loop
    rcases hs : copy_step fs job st item with ⟨ob, st1⟩
    rw [hs] at h1
    try rw [hs]
    cases ob with
    | none => exact ih st1 h1
    | some o => exact h1

/-- When the copy loop completes without aborting, the computed
destination of every candidate with a non-empty relative path has been
removed from the deletion candidates. -/
theorem copy_loop_removes (fs : FS) (job : CopyJobConfig) :
    ∀ (items : List FilePath) (st : CopyLoopState),
      (copy_loop fs job st items).1 = none → st.files_to_delete.Nodup →
      ∀ c ∈ items, (destfile_relative job c).isEmpty = false →
        (job.destination_dir ++ destfile_relative job c) ∉
          ((copy_loop fs job st items).2).files_to_delete := by
  intro items
  induction items with
  | nil => intro st _ _ c hc; simp at hc
  | cons item rest ih =>
    intro st hnone hnd c hc hrel
    rcases hs : copy_step fs job st item with ⟨ob, st1⟩
    have hsub : st1.files_to_delete.Sublist st.files_to_delete := by
      have hx := copy_step_sub fs job st item
      rwa [hs] at hx
    have hnd1 : st1.files_to_delete.Nodup := List.Nodup.sublist hsub hnd
    unfold copy_loop at hnone ⊢
    rw [hs] at hnone ⊢
    cases ob with
    | some o => simp at hnone
    | none =>
      rcases List.mem_cons.mp hc with hceq | hcrest
      · subst hceq
        have hrm := copy_step_removes fs job st c hnd hrel
        rw [hs] at hrm
        exact copy_loop_not_mem fs job _ rest st1 hrm
      · exact ih st1 hnone hnd1 c hcrest hrel

/-- Every path the deletion loop passes to remove_file comes from the
accumulated calls or from the remaining candidate list. -/
theorem delete_loop_calls (fs : FS) (job : CopyJobConfig) :
    ∀ (l : List FilePath) (n : Nat) (calls : List FilePath) (p : FilePath),
      p ∈ (delete_loop fs job n calls l).2.2 → p ∈ calls ∨ p ∈ l := by
  intro l
  induction l with
  | nil => intro n calls p hp; left; simpa [delete_loop] using hp
  | cons item rest ih =>
    intro n calls p hp
    have hmash : p ∈ calls ++ [item] → p ∈ calls ∨ p ∈ item :: rest := by
      intro h
      rcases List.mem_append.mp h with h2 | h2
      · exact Or.inl h2
      · exact Or.inr (List.mem_cons.mpr (Or.inl (List.mem_singleton.mp h2)))
    unfold delete_loop at hp
    rcases hr : (remove_file fs item job.follow_symlinks job.trash_on_delete).1 with _ | code <;>
      rw [hr] at hp
    · rcases ih (n + 1) (calls ++ [item]) p hp with h | h
      · exact hmash h
      · exact Or.inr (List.mem_cons.mpr (Or.inr h))
    · by_cases hh : job.halt_on_errors = true <;> simp only [hh, if_true,
        Bool.false_eq_true, if_false] at hp
      · exact hmash hp
      · rcases ih n (calls ++ [item]) p hp with h | h
        · exact hmash h
        · exact Or.inr (List.mem_cons.mpr (Or.inr h))

/-- CLAIM C2: in a run with remove_others_matching set, no path passed
to remove_file is the computed copy-destination of any enumerated copy
candidate of that run — every such destination is erased from the
deletion-candidate set during the copy loop, before any deletion
executes. The deletion-candidate list is assumed duplicate-free, as a
directory enumeration lists each path once. -/
theorem c2_holds (fs : FS) (ro : RegexOracle) (walk : FilePath → List WalkEntry)
    (job : CopyJobConfig)
    (hrm : job.remove_others_matching = true)
    (hnd : ((list_files_matching ro job.destination_dir (walk job.destination_dir)
      job.include_pattern job.exclude_pattern job.excludedir_pattern job.recursive
      job.follow_symlinks job.case_sensitive).getD []).Nodup) :
    ∀ p ∈ (run_single_job fs ro walk job).removedCalls,
      ∀ c ∈ (list_files_matching ro job.source_dir (walk job.source_dir) job.include_pattern
        job.exclude_pattern job.excludedir_pattern job.recursive job.follow_symlinks
        job.case_sensitive).getD [],
        destfile_relative job c ≠ [] →
        p ≠ job.destination_dir ++ destfile_relative job c := by
  intro p hp c hc hrel heq
  have hnd2 : (selected_files ro job.destination_dir (walk job.destination_dir)
      job.include_pattern job.exclude_pattern job.excludedir_pattern job.follow_symlinks
      job.case_sensitive).Nodup := by simpa [list_files_matching] using hnd
  have hc2 : c ∈ selected_files ro job.source_dir (walk job.source_dir) job.include_pattern
      job.exclude_pattern job.excludedir_pattern job.follow_symlinks job.case_sensitive := by
    simpa [list_files_matching] using hc
  have hrel2 : (destfile_relative job c).isEmpty = false := by
    cases hdr : destfile_relative job c with
    | nil => exact absurd hdr hrel
    | cons x xs => simp
  unfold run_single_job at hp
  by_cases h1 : (!fs.pathExists ((fs.canonicalize job.source_dir).getD [])) = true
  · simp [h1] at hp
  · rw [Bool.not_eq_true] at h1
    simp only [h1, Bool.false_eq_true, if_false] at hp
    by_cases h2 : (!fs.pathExists job.destination_dir && !job.create_directories) = true
    · simp [h2] at hp
    · rw [Bool.not_eq_true] at h2
      simp only [h2, Bool.false_eq_true, if_false, list_files_matching, hrm,
        eq_self_iff_true, if_true, Option.getD_some] at hp
      set ftc := selected_files ro job.source_dir (walk job.source_dir) job.include_pattern
        job.exclude_pattern job.excludedir_pattern job.follow_symlinks job.case_sensitive
        with hftc
      set ftd0 := selected_files ro job.destination_dir (walk job.destination_dir)
        job.include_pattern job.exclude_pattern job.excludedir_pattern job.follow_symlinks
        job.case_sensitive with hftd0
      rcases hcl : copy_loop fs job ⟨ftd0, 0⟩ ftc with ⟨ob, st⟩
      rw [hcl] at hp
      cases ob with
      | some o => simp at hp
      | none =>
        simp only [] at hp
        rcases hdl : delete_loop fs job 0 [] st.files_to_delete with ⟨dob, n2, calls⟩
        rw [hdl] at hp
        have hcalls : p ∈ calls := by cases dob <;> simpa using hp
        have hmem : p ∈ st.files_to_delete := by
          rcases delete_loop_calls fs job st.files_to_delete 0 [] p
              (by rw [hdl]; exact hcalls) with h | h
          · simp at h
          · exact h
        have hni := copy_loop_removes fs job ftc ⟨ftd0, 0⟩ (by rw [hcl]) hnd2 c hc2 hrel2
        rw [hcl] at hni
        exact hni (heq ▸ hmem)

/-- Witness for c2_holds on the concrete reconciliation scenario: the
surviving deletion call differs from the candidate destination. -/
theorem c2_witness :
    (["d", "g"] : FilePath) ≠ job_recon.destination_dir ++ destfile_relative job_recon ["s", "f"] := by
  have h := c2_holds fs_allexists ro_pick walk_recon job_recon rfl (by decide)
  exact h ["d", "g"] (by decide) ["s", "f"] (by decide) (by decide)


end Copyjob
